import Mathlib

/-!
# Verification of the image2video rendering pipeline

Shallow embedding of the core of the `image2video` repository:

* `src/models/image_item.py`        — the `ImageItem` dataclass,
* `src/services/animation_service.py` — curve table and the OpenCV frame maker,
* `src/services/video_service.py`   — clip creation, per-frame animation, sequencing,
* `src/services/transition_service.py` — the transition table and blending,
* `src/controllers/video_controller.py` — animation assignment for an item.

Times, durations, scales and pixel values are modelled as rationals (`ℚ`);
the easing-curve table, which uses `cos`/`exp`, is modelled over `ℝ`.
Python `dict` lookups with defaults become `Option` with `getD`; code paths
that raise become `Except` values.
-/

namespace Image2Video

/-- Python exception classes that the modelled code can raise. -/
inductive PyErr
  | fileNotFound
  | attributeError
  | valueError
  deriving DecidableEq, Repr

/-! ## `ImageItem` (src/models/image_item.py)

`image_path` / `audio_path` may be handed to the constructor either as a
`str` or as a `pathlib.Path`; `__post_init__` converts strings to `Path`.
-/

/-- A `pathlib.Path` value (identified by the string it wraps). -/
structure PyPath where
  s : String
  deriving DecidableEq, Repr

/-- A value that is either a Python `str` or a `pathlib.Path`. -/
inductive StrOrPath
  | fromStr (s : String)
  | fromPath (p : PyPath)
  deriving DecidableEq, Repr

/-- Python truthiness of a `str`-or-`Path` value: the empty string is falsy,
every `Path` (even `Path("")`, i.e. `Path(".")`) is truthy. -/
def StrOrPath.truthy : StrOrPath → Bool
  | .fromStr s => s ≠ ""
  | .fromPath _ => true

/-- An animation-settings dict: keys `scale`, `position`, `curve`
(the preset dicts in `AnimationService.preset_animations` all have this shape). -/
structure AnimationSettings where
  scale : ℚ × ℚ
  position : (ℚ × ℚ) × (ℚ × ℚ)
  curve : String
  deriving DecidableEq, Repr

/-- The `ImageItem` dataclass; field types as stored on the instance
(after `__post_init__` has possibly run, paths may still be either form). -/
structure ImageItem where
  id : String
  image_path : StrOrPath
  text : String
  audio_path : Option StrOrPath
  duration : ℚ
  animation : Option AnimationSettings
  order : ℤ
  deriving DecidableEq, Repr

/-- Effect of `__post_init__` on `image_path`:
`if isinstance(self.image_path, str): self.image_path = Path(self.image_path)`. -/
def postInitImagePath : StrOrPath → StrOrPath
  | .fromStr s => .fromPath ⟨s⟩
  | .fromPath p => .fromPath p

/-- Effect of `__post_init__` on `audio_path`:
`if self.audio_path and isinstance(self.audio_path, str): self.audio_path = Path(...)`
(note the truthiness test: the empty string is left unconverted). -/
def postInitAudioPath : Option StrOrPath → Option StrOrPath
  | none => none
  | some v => if v.truthy then some (postInitImagePath v) else some v

/-- Constructing an `ImageItem`: the dataclass `__init__` followed by
`__post_init__`. -/
def ImageItem.make (id : String) (image_path : StrOrPath) (text : String)
    (audio_path : Option StrOrPath) (duration : ℚ)
    (animation : Option AnimationSettings) (order : ℤ) : ImageItem :=
  { id := id
    image_path := postInitImagePath image_path
    text := text
    audio_path := postInitAudioPath audio_path
    duration := duration
    animation := animation
    order := order }

/-- The dict produced by `ImageItem.to_dict` / consumed by `ImageItem.from_dict`.
`duration`, `order` are `Option` because `from_dict` reads them with
`data.get(key, default)`; `to_dict` always emits them. -/
structure ItemDict where
  id : String
  image_path : StrOrPath
  text : String
  audio_path : Option StrOrPath
  duration : Option ℚ
  animation : Option AnimationSettings
  order : Option ℤ
  deriving DecidableEq, Repr

/-- Model of `ImageItem.to_dict`: emits all seven fields unchanged. -/
def ImageItem.to_dict (x : ImageItem) : ItemDict :=
  { id := x.id
    image_path := x.image_path
    text := x.text
    audio_path := x.audio_path
    duration := some x.duration
    animation := x.animation
    order := some x.order }

/-- Model of `ImageItem.from_dict`: reads `id`, `image_path`, `text` directly and the
rest with `.get` defaults (`duration` → 5.0, `order` → 0), then constructs the
dataclass (running `__post_init__`). -/
def ImageItem.from_dict (d : ItemDict) : ImageItem :=
  ImageItem.make d.id d.image_path d.text d.audio_path (d.duration.getD 5)
    d.animation (d.order.getD 0)

/-! ## Duration resolution and clip creation (src/services/video_service.py) -/

/-- Value of `VideoService.default_duration` (seconds per segment when nothing else
dictates a duration). -/
def default_duration : ℚ := 5

/-- The duration choice inside `VideoService.create_clip`:
`if audio_duration > 0: duration = audio_duration
 else: duration = item.get("duration", self.default_duration)`. -/
def resolve_effective_duration (audio_duration : ℚ) (hint : Option ℚ) : ℚ :=
  if audio_duration > 0 then audio_duration else hint.getD default_duration

/-- The value of an item's `animation` entry: either a preset-name string or a
settings dict (the preset dicts always carry their three keys, so a settings
value models a non-empty dict). -/
inductive AnimationValue
  | name (s : String)
  | settings (a : AnimationSettings)
  deriving DecidableEq, Repr

/-- Python truthiness of an `animation` value (`if animation:`): the empty
string is falsy; a settings dict (non-empty by construction) is truthy. -/
def AnimationValue.truthy : AnimationValue → Bool
  | .name s => s ≠ ""
  | .settings _ => true

/-- The attributes the `AnimationService` class actually defines: the three
instance attributes assigned in `__init__` plus its three methods
(src/services/animation_service.py defines nothing else, and no caller
monkey-patches the class). -/
def animationServiceAttrs : List String :=
  ["default_fps", "animation_curves", "preset_animations",
   "__init__", "apply_animation", "_create_static_clip"]

/-- Python attribute lookup on an `AnimationService` instance: a name outside
`animationServiceAttrs` raises `AttributeError`. -/
def animationServiceGetAttr (name : String) : Except PyErr Unit :=
  if name ∈ animationServiceAttrs then .ok () else .error .attributeError

/-- The item dict handed to `VideoService.create_clip`. -/
structure ClipItemDict where
  image_path : String
  id : Option String
  audio_path : Option String
  duration : Option ℚ
  animation : Option AnimationValue
  deriving DecidableEq, Repr

/-- The observable result of `create_clip`: a MoviePy clip with a duration and
possibly an attached audio track. -/
structure RenderedClip where
  duration : ℚ
  hasAudio : Bool
  deriving DecidableEq, Repr

/-- Model of `VideoService.create_clip` over an environment `fs` (file existence) and
`audioDurOf` (duration reported by `AudioFileClip` for an audio file):

1. missing image file ⇒ `FileNotFoundError`;
2. load the audio clip when `audio_path` is set and exists;
3. resolve the clip duration (audio duration > 0, else hint, else default);
4. `if animation:` — look up `get_animation_settings` on the animation
   service; the class does not define it, so this raises `AttributeError`.
   (The `.ok` branch under the successful lookup models what line 112 would
   return — the animated clip keeps the resolved duration — but the lookup
   never succeeds.)
5. otherwise attach the audio and return the clip. -/
def create_clip (fs : String → Bool) (audioDurOf : String → ℚ)
    (item : ClipItemDict) : Except PyErr RenderedClip :=
  if fs item.image_path = false then .error .fileNotFound
  else
    let audioLoaded : Bool := match item.audio_path with
      | some p => fs p
      | none => false
    let audio_duration : ℚ := match item.audio_path with
      | some p => if fs p then audioDurOf p else 0
      | none => 0
    let duration := resolve_effective_duration audio_duration item.duration
    match item.animation with
    | some a =>
      if a.truthy then
        match animationServiceGetAttr "get_animation_settings" with
        | .ok _ => .ok ⟨duration, audioLoaded⟩
        | .error e => .error e
      else .ok ⟨duration, audioLoaded⟩
    | none => .ok ⟨duration, audioLoaded⟩

/-! ## Frame Transformer arithmetic

Two implementations exist:

* `AnimationService.apply_animation.make_frame` (animation_service.py, 188–239):
  one combined affine warp, `BORDER_CONSTANT` black fill, progress `t/duration`
  **without** clamping;
* `VideoService.apply_opencv_animation.process_frame` (video_service.py, 167–230):
  progress `min(1, t/duration)`, a border-safety scale when the interpolated
  offset is nonzero, and up to two sequential warps with `BORDER_REFLECT`.

Both are parametrised here by the curve function's value stream
(`curve : ℚ → ℚ`); the actual curve table lives over `ℝ` below. -/

/-- Linear interpolation `a + (b - a) * c`, the form used by both frame makers
for scale and position. -/
def interp (a b c : ℚ) : ℚ := a + (b - a) * c

/-- Progress of `process_frame`: `min(1.0, t / duration) if duration > 0 else 1.0`. -/
def processProgress (duration t : ℚ) : ℚ :=
  if duration > 0 then min 1 (t / duration) else 1

/-- Progress of `make_frame`: `t / duration if duration > 0 else 1.0` — no clamp. -/
def makeProgress (duration t : ℚ) : ℚ :=
  if duration > 0 then t / duration else 1

/-- Modelled from the spec: normalized progress
`p = clamp(t / duration, 0, 1)` with `duration ≤ 0 ⇒ p = 1` — stated from the
spec's words, to be compared with the two code-side progress functions. -/
def specProgress (duration t : ℚ) : ℚ :=
  if duration ≤ 0 then 1 else min 1 (max 0 (t / duration))

/-- Interpolated scale of `process_frame` at time `t`:
`current_scale = start_scale + (end_scale - start_scale) * curve_value`. -/
def processFrameScale (s0 s1 : ℚ) (curve : ℚ → ℚ) (duration t : ℚ) : ℚ :=
  interp s0 s1 (curve (processProgress duration t))

/-- Interpolated scale of `make_frame` at time `t` (same formula, unclamped
progress). -/
def makeFrameScale (s0 s1 : ℚ) (curve : ℚ → ℚ) (duration t : ℚ) : ℚ :=
  interp s0 s1 (curve (makeProgress duration t))

/-- Anti-border scale of `process_frame`:
`border_scale = max(1.0, 1.0 + 2 * |current_x|, 1.0 + 2 * |current_y|)`. -/
def border_scale (dx dy : ℚ) : ℚ :=
  max 1 (max (1 + 2 * |dx|) (1 + 2 * |dy|))

/-- The border fill policy of a `cv2.warpAffine` call. -/
inductive BorderMode
  | reflect
  | constantBlack
  deriving DecidableEq, Repr

/-- One `cv2.warpAffine` pass: the six entries of the 2×3 affine matrix and
the border mode. -/
structure Warp where
  m00 : ℚ
  m01 : ℚ
  m02 : ℚ
  m10 : ℚ
  m11 : ℚ
  m12 : ℚ
  border : BorderMode
  deriving DecidableEq, Repr

/-- The sequence of `warpAffine` passes `process_frame` applies to a `w×h`
frame, given start/end scale `s0,s1`, start/end offsets `(x0,y0),(x1,y1)` and
the curve value `c` at the current time:

* scale matrix `M_scale` — built with `effective_scale = current_scale *
  border_scale` when the offset is nonzero, plain `current_scale` otherwise —
  applied **only when `current_scale != 1.0`**;
* translation matrix `M_translate` applied only when the offset is nonzero;
* both passes use `borderMode=cv2.BORDER_REFLECT`. -/
def processFrameWarps (w h s0 s1 x0 x1 y0 y1 c : ℚ) : List Warp :=
  let cs := interp s0 s1 c
  let cx := interp x0 x1 c
  let cy := interp y0 y1 c
  let es := if |cx| > 0 ∨ |cy| > 0 then cs * border_scale cx cy else cs
  (if cs ≠ 1 then
    [⟨es, 0, w * (1 - es) / 2, 0, es, h * (1 - es) / 2, .reflect⟩] else []) ++
  (if cx ≠ 0 ∨ cy ≠ 0 then
    [⟨1, 0, cx * w, 0, 1, cy * h, .reflect⟩] else [])

/-- The single `warpAffine` pass of `make_frame`: `cv2.getRotationMatrix2D`
with angle 0 and scale `current_scale` about the image centre, translation
entries then shifted by `center + offset - img/2 * current_scale`, applied
with `borderMode=cv2.BORDER_CONSTANT, borderValue=(0,0,0)`. -/
def makeFrameWarps (imgW imgH canvasW canvasH s0 s1 x0 x1 y0 y1 c : ℚ) :
    List Warp :=
  let cs := interp s0 s1 c
  let cx := interp x0 x1 c
  let cy := interp y0 y1 c
  [⟨cs, 0, (1 - cs) * (imgW / 2) + canvasW / 2 + canvasW * cx - imgW / 2 * cs,
    0, cs, (1 - cs) * (imgH / 2) + canvasH / 2 + canvasH * cy - imgH / 2 * cs,
    .constantBlack⟩]

/-- The net scale factor a sequence of warps applies to the image: all the
warps built by this code are axis-aligned (`m01 = m10 = 0`, `m00 = m11`), so
composing them scales by the product of the diagonal entries. -/
def appliedScaleOfWarps (ws : List Warp) : ℚ :=
  (ws.map Warp.m00).prod

/-- Model of `VideoController.create_animation_for_item` (src/controllers/video_controller.py,
lines 255–258): calls `self.video_service.animation_service.combine_animation_settings`,
an attribute the `AnimationService` class does not define, so the attribute
lookup raises `AttributeError`.  (The `.ok` branch models the assignment that
would follow a successful lookup; it is unreachable.) -/
def create_animation_for_item (scale_preset position_preset curve : String) :
    Except PyErr AnimationSettings :=
  match animationServiceGetAttr "combine_animation_settings" with
  | .ok _ => .ok ⟨(1, 1), ((0, 0), (0, 0)), curve⟩
  | .error e => .error e

/-! ## The easing-curve table (src/services/animation_service.py, 22–34)

`self.animation_curves`, entry for entry.  `np.cos`, `np.exp`, `np.pi` and
`np.power` become `Real.cos`, `Real.exp`, `Real.pi` and `^`. -/

open scoped Classical in
/-- Table `AnimationService.animation_curves`: the eleven named easing curves. -/
noncomputable def animation_curves : List (String × (ℝ → ℝ)) :=
  [("线性", fun x => x),
   ("缓入", fun x => x * x * x),
   ("强缓入", fun x => x * x * x * x),
   ("超强缓入", fun x => x * x * x * x * x),
   ("缓出", fun x => 1 - (1 - x) * (1 - x) * (1 - x)),
   ("强缓出", fun x => 1 - (1 - x) * (1 - x) * (1 - x) * (1 - x)),
   ("超强缓出", fun x => 1 - (1 - x) * (1 - x) * (1 - x) * (1 - x) * (1 - x)),
   ("缓入缓出", fun x => 0.5 * (1 - Real.cos (x * Real.pi))),
   ("强缓入缓出", fun x => -(Real.cos (Real.pi * x) - 1) / 2),
   ("弹性", fun x => 0.8 * (-Real.cos (x * Real.pi * 2) * Real.exp (-x * 3)) + x),
   ("回弹", fun x => if x < 0.5 then 2 * x * x else 1 - (-2 * x + 2) ^ 2 / 2)]

/-- The two curve names the spec exempts from the endpoint law (documented
overshoot). -/
def exemptCurveNames : List String := ["弹性", "回弹"]

/-! ## Transition Engine (src/services/transition_service.py) -/

/-- The transition kinds implemented by `TransitionService` (the `_…` methods);
`noTransition` is `_no_transition`, which returns `clip2` unchanged. -/
inductive TransKind
  | crossfade
  | slideLeft
  | slideRight
  | slideTop
  | slideBottom
  | zoomFade
  | rotateFade
  | blinds
  | warpDissolve
  | flash
  | noTransition
  deriving DecidableEq, Repr

/-- A value of the `self.transitions` dict: the string `"none"` marker (for
`"无"`), Python `None` (for `"随机"`), or a callable transition function. -/
inductive TransEntry
  | noneMarker
  | randomMarker
  | func (k : TransKind)
  deriving DecidableEq, Repr

/-- Table `TransitionService.transitions`, entry for entry. -/
def transitions : List (String × TransEntry) :=
  [("无", .noneMarker),
   ("淡入淡出", .func .crossfade),
   ("滑动-左", .func .slideLeft),
   ("滑动-右", .func .slideRight),
   ("滑动-上", .func .slideTop),
   ("滑动-下", .func .slideBottom),
   ("缩放淡入", .func .zoomFade),
   ("旋转淡入", .func .rotateFade),
   ("百叶窗", .func .blinds),
   ("扭曲溶解", .func .warpDissolve),
   ("闪白过渡", .func .flash),
   ("随机", .randomMarker)]

/-- The candidate names for a random transition: all keys with `"无"` and
`"随机"` removed (`get_transition_function`, lines 46–50). -/
def transitionOptions : List String :=
  ((transitions.map Prod.fst).filter (fun n => n ≠ "无")).filter
    (fun n => n ≠ "随机")

/-- Model of `TransitionService.get_transition_function`.  `random.choice` is modelled
by an index `pick` into the candidate list.  For every other name the code
returns `self.transitions.get(transition_name, self._no_transition)` — the
fallback for an unknown name is the pass-through `_no_transition`, not
crossfade. -/
def get_transition_function (name : String) (pick : ℕ) : TransEntry :=
  if name = "随机" then
    (transitions.lookup
      ((transitionOptions.get? (pick % transitionOptions.length)).getD
        "淡入淡出")).getD (.func .noTransition)
  else (transitions.lookup name).getD (.func .noTransition)

/-- Python `callable` on a dict value: only a `.func` entry is callable. -/
def callableKind : Option TransEntry → Option TransKind
  | some (.func k) => some k
  | _ => none

/-- What `TransitionService.apply_transitions_to_clips` does to one clip
boundary on the global (non-custom) path, lines 119–147: `none` means the
boundary's clip is left in `result_clips` unchanged (no transition applied).
For an unknown name `self.transitions.get(name)` is `None`, `callable(None)`
is false, and the loop body never runs — no fallback to crossfade. -/
def globalBoundaryAction (name : String) (pick : ℕ) : Option TransKind :=
  if name = "无" ∨ transitions.lookup name = some TransEntry.noneMarker then
    none
  else if name = "随机" ∨ transitions.lookup name = some TransEntry.randomMarker
  then callableKind (some (get_transition_function name pick))
  else callableKind (transitions.lookup name)

/-- What `TransitionService.create_composite_transition` does to one clip
boundary, lines 186–210: `none` appends the clip untransitioned; an unknown
name reaches the `else` arm ("未找到转场效果") and falls back to `_crossfade`.
(For `"随机"` the randomly chosen `trans_func` at line 195 is discarded —
line 198 re-reads the table, getting the non-callable `None` marker — so the
random case also lands on the crossfade fallback.) -/
def compositeBoundaryKind (name : String) : Option TransKind :=
  if name = "无" ∨ transitions.lookup name = some TransEntry.noneMarker then
    none
  else match callableKind (transitions.lookup name) with
    | some k => some k
    | none => some TransKind.crossfade

/-! ### `_crossfade` (transition_service.py, 219–251)

Frames are modelled as rational-valued pixel rasters (`ℕ → ℚ`);
`cv2.addWeighted(f1, 1-q, f2, q, 0)` is the pointwise linear blend (the uint8
saturation/rounding of the real library is not modelled). -/

/-- A raster frame: pixel index ↦ value. -/
def PyFrame : Type := ℕ → ℚ

/-- An audio track attached to a clip (identified by duration and a tag). -/
structure AudioTrack where
  duration : ℚ
  tag : String
  deriving DecidableEq, Repr

/-- A MoviePy `VideoClip`: a duration, a time-indexed frame source
(`get_frame`), and an optional audio track. -/
structure MClip where
  duration : ℚ
  frame : ℚ → PyFrame
  audio : Option AudioTrack

/-- Model of `cv2.addWeighted(f1, alpha, f2, beta, 0)` on rational frames. -/
def addWeighted (f1 f2 : PyFrame) (alpha beta : ℚ) : PyFrame :=
  fun p => f1 p * alpha + f2 p * beta

/-- Model of `TransitionService._crossfade`: the new clip has `clip2`'s duration; for
`t < duration` it blends `clip1.get_frame(clip1.duration - duration + t)` with
`clip2.get_frame(t)` at weights `(1 - t/duration, t/duration)`, afterwards it
returns `clip2.get_frame(t)`.  The fresh `VideoClip` has no audio and
`clip2.audio` is copied onto it when present, so its audio is `clip2.audio`
in both cases. -/
def crossfade (clip1 clip2 : MClip) (duration : ℚ) : MClip :=
  { duration := clip2.duration
    frame := fun t =>
      if t < duration then
        addWeighted (clip1.frame (clip1.duration - duration + t))
          (clip2.frame t) (1 - t / duration) (t / duration)
      else clip2.frame t
    audio := clip2.audio }

/-! ## Tail padding (src/services/video_service.py, `create_video` 365–391) -/

/-- The tail-padding step of `create_video`: when the last original clip
carries an audio track, the code sets
`last_audio_end_time = sum(clip.duration for clip in original_clips)` and,
if that exceeds `final_clip.duration`, concatenates a freeze-frame
`ImageClip` of length `last_audio_end_time - final_clip.duration`, so the
padded visual duration equals `last_audio_end_time`.  Returns the final
visual duration. -/
def padFinalDuration (origDurations : List ℚ) (lastHasAudio : Bool)
    (finalDuration : ℚ) : ℚ :=
  if lastHasAudio ∧ origDurations ≠ [] then
    let last_audio_end_time := origDurations.sum
    if last_audio_end_time > finalDuration then last_audio_end_time
    else finalDuration
  else finalDuration

/-! ## Theorems -/

/-- Idempotence of `postInitImagePath`. -/
theorem postInitImagePath_idem (v : StrOrPath) :
    postInitImagePath (postInitImagePath v) = postInitImagePath v := by
  cases v <;> rfl

/-- Idempotence of `postInitAudioPath`. -/
theorem postInitAudioPath_idem (v : Option StrOrPath) :
    postInitAudioPath (postInitAudioPath v) = postInitAudioPath v := by
  rcases v with _ | (s | p)
  · rfl
  · by_cases h : s = "" <;>
      simp [postInitAudioPath, StrOrPath.truthy, postInitImagePath, h]
  · simp [postInitAudioPath, StrOrPath.truthy, postInitImagePath]

/-- C10: `ImageItem.from_dict ∘ ImageItem.to_dict` is the identity on every
constructible `ImageItem` (every combination of raw constructor arguments,
with `__post_init__` applied as the dataclass does): all seven fields — id,
image_path, text, audio_path, duration, animation, order — round-trip. -/
theorem imageItem_roundtrip (id : String) (image_path : StrOrPath)
    (text : String) (audio_path : Option StrOrPath) (duration : ℚ)
    (animation : Option AnimationSettings) (order : ℤ) :
    ImageItem.from_dict
        (ImageItem.make id image_path text audio_path duration animation
          order).to_dict
      = ImageItem.make id image_path text audio_path duration animation order := by
  simp [ImageItem.from_dict, ImageItem.to_dict, ImageItem.make,
    postInitImagePath_idem, postInitAudioPath_idem]

/-- C8: the effective clip duration resolves to the audio duration whenever
it is positive, else to the supplied hint, else to the global default; a
hint of 3.0 with attached audio of length 6.0 resolves to 6.0. -/
theorem effective_duration_resolution (a b hq : ℚ) (hint : Option ℚ)
    (ha : 0 < a) (hb : b ≤ 0) :
    resolve_effective_duration a hint = a
  ∧ resolve_effective_duration b (some hq) = hq
  ∧ resolve_effective_duration b none = default_duration
  ∧ resolve_effective_duration 6 (some 3) = 6 := by
  refine ⟨?_, ?_, ?_, by norm_num [resolve_effective_duration]⟩ <;>
    simp [resolve_effective_duration, ha, not_lt.mpr hb]

/-- Witness for C8 at audio duration 6, hint 3 (and a silent item with
hint 3 / no hint). -/
theorem effective_duration_resolution_witness :
    resolve_effective_duration 6 (some 3) = 6
  ∧ resolve_effective_duration 0 (some 3) = 3
  ∧ resolve_effective_duration 0 none = default_duration
  ∧ resolve_effective_duration 6 (some 3) = 6 :=
  effective_duration_resolution 6 0 3 (some 3) (by norm_num) (by norm_num)

/-- C1: for every item whose `animation` field is truthy and whose image file
exists, `VideoService.create_clip` raises `AttributeError` (it never returns
a clip), because `AnimationService` defines neither `get_animation_settings`
nor `get_curve_function`; and `VideoController.create_animation_for_item`
likewise raises `AttributeError` because `combine_animation_settings` is also
undefined. -/
theorem create_clip_attribute_error (fs : String → Bool)
    (audioDurOf : String → ℚ) (item : ClipItemDict) (a : AnimationValue)
    (hfs : fs item.image_path = true) (hanim : item.animation = some a)
    (htruthy : a.truthy = true) :
    create_clip fs audioDurOf item = .error PyErr.attributeError
  ∧ "get_animation_settings" ∉ animationServiceAttrs
  ∧ "get_curve_function" ∉ animationServiceAttrs
  ∧ "combine_animation_settings" ∉ animationServiceAttrs
  ∧ ∀ s p c, create_animation_for_item s p c = .error PyErr.attributeError := by
  refine ⟨?_, by decide, by decide, by decide, fun s p c => rfl⟩
  simp [create_clip, hfs, hanim, htruthy, animationServiceGetAttr,
    animationServiceAttrs]

/-- Witness for C1: a concrete item (existing image, preset-name animation
`"推"`). -/
theorem create_clip_attribute_error_witness :
    create_clip (fun _ => true) (fun _ => 0)
        ⟨"img.png", none, none, none, some (AnimationValue.name "推")⟩
      = .error PyErr.attributeError
  ∧ "get_animation_settings" ∉ animationServiceAttrs
  ∧ "get_curve_function" ∉ animationServiceAttrs
  ∧ "combine_animation_settings" ∉ animationServiceAttrs
  ∧ ∀ s p c, create_animation_for_item s p c = .error PyErr.attributeError :=
  create_clip_attribute_error (fun _ => true) (fun _ => 0)
    ⟨"img.png", none, none, none, some (AnimationValue.name "推")⟩
    (AnimationValue.name "推") rfl rfl (by decide)

/-- C9: every named curve in `animation_curves` other than the elastic
(`"弹性"`) and bounce (`"回弹"`) variants satisfies `curve 0 = 0` and
`curve 1 = 1` exactly. -/
theorem curve_endpoints (p : String × (ℝ → ℝ))
    (hmem : p ∈ animation_curves) (hex : p.1 ∉ exemptCurveNames) :
    p.2 0 = 0 ∧ p.2 1 = 1 := by
  simp only [animation_curves, List.mem_cons, List.not_mem_nil, or_false]
    at hmem
  rcases hmem with rfl | rfl | rfl | rfl | rfl | rfl | rfl | rfl | rfl | rfl
    | rfl <;>
    first
      | exact absurd (by decide) hex
      | constructor <;>
          norm_num [Real.cos_pi, Real.cos_zero]

/-- Witness for C9 at the ease-in-out curve `"缓入缓出"`. -/
theorem curve_endpoints_witness :
    (fun x : ℝ => 0.5 * (1 - Real.cos (x * Real.pi))) 0 = 0
  ∧ (fun x : ℝ => 0.5 * (1 - Real.cos (x * Real.pi))) 1 = 1 :=
  curve_endpoints ("缓入缓出", fun x => 0.5 * (1 - Real.cos (x * Real.pi)))
    (by simp [animation_curves]) (by decide)

/-- C7: the crossfade-blended clip has `clipB`'s total duration and `clipB`'s
audio; for `0 ≤ t < d` its frame is the per-pixel linear blend
`A.frame(A.duration - d + t)·(1 - t/d) + B.frame(t)·(t/d)` (so at `t = 0` it
is exactly A's sampled frame), and for `t ≥ d` it is exactly `B.frame(t)`. -/
theorem crossfade_spec (c1 c2 : MClip) (d t t' : ℚ)
    (h0 : 0 ≤ t) (h1 : t < d) (h2 : d ≤ t') :
    (crossfade c1 c2 d).duration = c2.duration
  ∧ (crossfade c1 c2 d).audio = c2.audio
  ∧ (crossfade c1 c2 d).frame t =
      (fun p => c1.frame (c1.duration - d + t) p * (1 - t / d)
        + c2.frame t p * (t / d))
  ∧ (crossfade c1 c2 d).frame t' = c2.frame t'
  ∧ (crossfade c1 c2 d).frame 0 = c1.frame (c1.duration - d) := by
  have hd : 0 < d := lt_of_le_of_lt h0 h1
  refine ⟨rfl, rfl, ?_, ?_, ?_⟩
  · simp only [crossfade, if_pos h1]
    rfl
  · simp [crossfade, if_neg (not_lt.mpr h2)]
  · funext p
    simp [crossfade, addWeighted, hd]

/-- Witness for C7: two constant-frame clips (A: duration 2, pixel value 7;
B: duration 4, pixel value 9, with an audio track), crossfade window 1,
sampled at `t = 1/2` inside and `t' = 5` outside the window. -/
theorem crossfade_spec_witness :
    (crossfade ⟨2, fun _ => fun _ => 7, none⟩
        ⟨4, fun _ => fun _ => 9, some ⟨4, "b"⟩⟩ 1).duration
      = (⟨4, fun _ => fun _ => 9, some ⟨4, "b"⟩⟩ : MClip).duration
  ∧ (crossfade ⟨2, fun _ => fun _ => 7, none⟩
        ⟨4, fun _ => fun _ => 9, some ⟨4, "b"⟩⟩ 1).audio
      = (⟨4, fun _ => fun _ => 9, some ⟨4, "b"⟩⟩ : MClip).audio
  ∧ (crossfade ⟨2, fun _ => fun _ => 7, none⟩
        ⟨4, fun _ => fun _ => 9, some ⟨4, "b"⟩⟩ 1).frame (1/2) =
      (fun p => (fun _ => fun _ => (7 : ℚ)) ((2 : ℚ) - 1 + 1/2) p
          * (1 - (1/2) / 1)
        + (fun _ => fun _ => (9 : ℚ)) ((1 : ℚ)/2) p * ((1/2) / 1))
  ∧ (crossfade ⟨2, fun _ => fun _ => 7, none⟩
        ⟨4, fun _ => fun _ => 9, some ⟨4, "b"⟩⟩ 1).frame 5
      = (fun _ => fun _ => (9 : ℚ)) (5 : ℚ)
  ∧ (crossfade ⟨2, fun _ => fun _ => 7, none⟩
        ⟨4, fun _ => fun _ => 9, some ⟨4, "b"⟩⟩ 1).frame 0
      = (fun _ => fun _ => (7 : ℚ)) ((2 : ℚ) - 1) :=
  crossfade_spec ⟨2, fun _ => fun _ => 7, none⟩
    ⟨4, fun _ => fun _ => 9, some ⟨4, "b"⟩⟩ 1 (1/2) 5
    (by norm_num) (by norm_num) (by norm_num)

/-- C3: clip durations are reconciled to the audio (`create_clip` sets the
clip duration to the attached audio's duration), so the trailing audio ends
at `Σ original durations - lastDuration + audioDuration = Σ original
durations`; when that end time exceeds the concatenated visual duration,
`create_video` appends freeze-frame padding of exactly the difference, so the
padded visual duration equals — in particular is at least — the trailing
audio end time. -/
theorem tail_padding_extends_to_audio_end (fs : String → Bool)
    (audioDurOf : String → ℚ) (item : ClipItemDict) (p : String)
    (origDurations : List ℚ) (finalDuration audioDur : ℚ)
    (hne : origDurations ≠ []) (hpos : ∀ x ∈ origDurations, 0 ≤ x)
    (hlast : origDurations.getLast hne = audioDur)
    (hexceeds : finalDuration < audioDur)
    (hap : item.audio_path = some p) (hfsp : fs p = true)
    (hfsi : fs item.image_path = true) (hdur : 0 < audioDurOf p)
    (hanim : item.animation = none) :
    create_clip fs audioDurOf item = .ok ⟨audioDurOf p, true⟩
  ∧ padFinalDuration origDurations true finalDuration
      = origDurations.sum - audioDur + audioDur
  ∧ origDurations.sum - audioDur + audioDur
      ≤ padFinalDuration origDurations true finalDuration := by
  have hmem : audioDur ∈ origDurations := hlast ▸ List.getLast_mem hne
  have hsum : audioDur ≤ origDurations.sum := List.single_le_sum hpos _ hmem
  have hgt : finalDuration < origDurations.sum := lt_of_lt_of_le hexceeds hsum
  refine ⟨?_, ?_, ?_⟩
  · simp [create_clip, hfsi, hap, hfsp, hanim, resolve_effective_duration,
      hdur]
  · simp [padFinalDuration, hne, hgt]
  · simp [padFinalDuration, hne, hgt]

/-- Witness for C3: original clip durations `[4, 7]` (last clip's audio is
7.0s, matching its duration), concatenated visual duration 6.0 < 7.0: the
padded duration is the audio end time `4 + 7 - 7 + 7 = 11`. -/
theorem tail_padding_extends_to_audio_end_witness :
    create_clip (fun _ => true) (fun _ => 7)
        ⟨"img.png", none, some "a.mp3", some 3, none⟩
      = .ok ⟨7, true⟩
  ∧ padFinalDuration [4, 7] true 6 = ([4, 7] : List ℚ).sum - 7 + 7
  ∧ ([4, 7] : List ℚ).sum - 7 + 7 ≤ padFinalDuration [4, 7] true 6 :=
  tail_padding_extends_to_audio_end (fun _ => true) (fun _ => 7)
    ⟨"img.png", none, some "a.mp3", some 3, none⟩ "a.mp3" [4, 7] 6 7
    (by decide) (by norm_num) (by norm_num) (by norm_num) rfl rfl rfl
    (by norm_num) rfl

/-- C4 counterexample: for the unknown transition name `"nonexistent"`, the
global path applies no transition at the boundary (and
`get_transition_function` falls back to the pass-through `_no_transition`),
so the fallback is crossfade only on the composite path — the claim's
"uniformly crossfade in both paths" is false. -/
theorem unknown_transition_counterexample :
    globalBoundaryAction "nonexistent" 0 ≠ some TransKind.crossfade
  ∧ globalBoundaryAction "nonexistent" 0 = none
  ∧ get_transition_function "nonexistent" 0
      = TransEntry.func TransKind.noTransition
  ∧ compositeBoundaryKind "nonexistent" = some TransKind.crossfade := by
  refine ⟨by decide, by decide, by decide, by decide⟩

/-- C4 amended: for every name outside the transition table, no path raises
(the boundary functions are total and return a defined action), the composite
path (`create_composite_transition`) falls back to crossfade, but the global
path (`apply_transitions_to_clips`) leaves the boundary untransitioned —
`get_transition_function` falls back to the pass-through `_no_transition`,
not to crossfade. -/
theorem unknown_transition_fallback (name : String) (pick : ℕ)
    (h : transitions.lookup name = none) :
    globalBoundaryAction name pick = none
  ∧ compositeBoundaryKind name = some TransKind.crossfade
  ∧ get_transition_function name pick
      = TransEntry.func TransKind.noTransition := by
  have h1 : name ≠ "无" := by
    rintro rfl; exact absurd h (by decide)
  have h2 : name ≠ "随机" := by
    rintro rfl; exact absurd h (by decide)
  refine ⟨?_, ?_, ?_⟩
  · simp [globalBoundaryAction, h, h1, h2, callableKind]
  · simp [compositeBoundaryKind, h, h1, callableKind]
  · simp [get_transition_function, h, h2]

/-- Witness for C4 (amended) at the name `"nonexistent"`. -/
theorem unknown_transition_fallback_witness :
    globalBoundaryAction "nonexistent" 1 = none
  ∧ compositeBoundaryKind "nonexistent" = some TransKind.crossfade
  ∧ get_transition_function "nonexistent" 1
      = TransEntry.func TransKind.noTransition :=
  unknown_transition_fallback "nonexistent" 1 (by decide)

/-- C2 counterexample: with requested scale range `[1.0, 1.0]` and position
going from `(0,0)` to `(0.1, 0)`, at curve value `1/2` the interpolated
offset is `dx = 1/20 ≠ 0`, yet `process_frame` (video_service.py) skips the
scale warp entirely (because `current_scale == 1.0`), so the scale actually
applied is `1`, strictly below the claimed bound
`border_scale(dx,dy) · current_scale = 11/10`; and `make_frame`
(animation_service.py) applies the plain interpolated scale `11/10` with no
border correction at all, also below its claimed bound. -/
theorem border_scale_counterexample :
    interp 0 (1/10) (1/2) ≠ 0
  ∧ appliedScaleOfWarps (processFrameWarps 640 480 1 1 0 (1/10) 0 0 (1/2)) = 1
  ∧ (1 : ℚ) < border_scale (interp 0 (1/10) (1/2)) (interp 0 0 (1/2))
      * interp 1 1 (1/2)
  ∧ appliedScaleOfWarps
      (makeFrameWarps 640 480 640 480 (11/10) (11/10) (1/20) (1/20) 0 0 (1/2))
      = 11/10
  ∧ appliedScaleOfWarps
      (makeFrameWarps 640 480 640 480 (11/10) (11/10) (1/20) (1/20) 0 0 (1/2))
      < border_scale (interp (1/20) (1/20) (1/2)) (interp 0 0 (1/2))
        * interp (11/10) (11/10) (1/2) := by
  refine ⟨?_, ?_, ?_, ?_, ?_⟩ <;>
    norm_num [interp, processFrameWarps, appliedScaleOfWarps, border_scale,
      makeFrameWarps, abs]

/-- C2 amended: the border-safety bound holds in `process_frame` only when
the interpolated scale differs from 1.0 (only then is the scale warp — and
with it the correction — applied): in that case, for any nonzero interpolated
offset, the scale actually applied equals
`current_scale · border_scale(dx, dy)`, which is at least `(1 + 2|dx|)` and
`(1 + 2|dy|)` times the interpolated scale and at least the interpolated
scale itself.  (When the interpolated scale is exactly 1, and on the
`make_frame` path always, no border correction is applied —
see the counterexample.) -/
theorem border_scale_when_scaling (w h s0 s1 x0 x1 y0 y1 c : ℚ)
    (hcs1 : interp s0 s1 c ≠ 1) (hcs0 : 0 ≤ interp s0 s1 c)
    (hoff : interp x0 x1 c ≠ 0 ∨ interp y0 y1 c ≠ 0) :
    appliedScaleOfWarps (processFrameWarps w h s0 s1 x0 x1 y0 y1 c)
      = interp s0 s1 c * border_scale (interp x0 x1 c) (interp y0 y1 c)
  ∧ (1 + 2 * |interp x0 x1 c|) * interp s0 s1 c
      ≤ appliedScaleOfWarps (processFrameWarps w h s0 s1 x0 x1 y0 y1 c)
  ∧ (1 + 2 * |interp y0 y1 c|) * interp s0 s1 c
      ≤ appliedScaleOfWarps (processFrameWarps w h s0 s1 x0 x1 y0 y1 c)
  ∧ interp s0 s1 c
      ≤ appliedScaleOfWarps (processFrameWarps w h s0 s1 x0 x1 y0 y1 c) := by
  have habs : |interp x0 x1 c| > 0 ∨ |interp y0 y1 c| > 0 := by
    rcases hoff with hx | hy
    · exact Or.inl (abs_pos.mpr hx)
    · exact Or.inr (abs_pos.mpr hy)
  have heq : appliedScaleOfWarps (processFrameWarps w h s0 s1 x0 x1 y0 y1 c)
      = interp s0 s1 c * border_scale (interp x0 x1 c) (interp y0 y1 c) := by
    simp [processFrameWarps, appliedScaleOfWarps, hcs1, habs, hoff]
  have hbx : 1 + 2 * |interp x0 x1 c|
      ≤ border_scale (interp x0 x1 c) (interp y0 y1 c) :=
    le_max_of_le_right (le_max_left _ _)
  have hby : 1 + 2 * |interp y0 y1 c|
      ≤ border_scale (interp x0 x1 c) (interp y0 y1 c) :=
    le_max_of_le_right (le_max_right _ _)
  have hb1 : (1 : ℚ) ≤ border_scale (interp x0 x1 c) (interp y0 y1 c) :=
    le_max_left _ _
  refine ⟨heq, ?_, ?_, ?_⟩
  · rw [heq, mul_comm (interp s0 s1 c)]
    exact mul_le_mul_of_nonneg_right hbx hcs0
  · rw [heq, mul_comm (interp s0 s1 c)]
    exact mul_le_mul_of_nonneg_right hby hcs0
  · rw [heq]
    calc interp s0 s1 c = interp s0 s1 c * 1 := (mul_one _).symm
    _ ≤ interp s0 s1 c * border_scale (interp x0 x1 c) (interp y0 y1 c) :=
        mul_le_mul_of_nonneg_left hb1 hcs0

/-- Witness for C2 (amended): scale `[1, 1.2]`, position `(0,0) → (0.1, 0)`
at curve value `1/2`: applied scale `= 11/10 · 11/10 = 121/100`. -/
theorem border_scale_when_scaling_witness :
    appliedScaleOfWarps (processFrameWarps 640 480 1 (12/10) 0 (1/10) 0 0 (1/2))
      = interp 1 (12/10) (1/2)
        * border_scale (interp 0 (1/10) (1/2)) (interp 0 0 (1/2))
  ∧ (1 + 2 * |interp 0 (1/10) (1/2)|) * interp 1 (12/10) (1/2)
      ≤ appliedScaleOfWarps
          (processFrameWarps 640 480 1 (12/10) 0 (1/10) 0 0 (1/2))
  ∧ (1 + 2 * |interp 0 0 (1/2)|) * interp 1 (12/10) (1/2)
      ≤ appliedScaleOfWarps
          (processFrameWarps 640 480 1 (12/10) 0 (1/10) 0 0 (1/2))
  ∧ interp 1 (12/10) (1/2)
      ≤ appliedScaleOfWarps
          (processFrameWarps 640 480 1 (12/10) 0 (1/10) 0 0 (1/2)) :=
  border_scale_when_scaling 640 480 1 (12/10) 0 (1/10) 0 0 (1/2)
    (by norm_num [interp]) (by norm_num [interp])
    (Or.inl (by norm_num [interp]))

/-- C5 counterexample: with interpolated scale `11/10 ≠ 1` and interpolated
offset `1/20 ≠ 0`, `process_frame` applies **two** sequential `warpAffine`
passes (scale, then translate), not one combined matrix; and `make_frame`'s
single combined pass uses `BORDER_CONSTANT` black fill, not reflect. -/
theorem single_pass_counterexample :
    (processFrameWarps 640 480 1 (12/10) 0 (1/10) 0 0 (1/2)).length = 2
  ∧ (makeFrameWarps 640 480 640 480 1 (12/10) 0 (1/10) 0 0 (1/2)).map
      Warp.border = [BorderMode.constantBlack] := by
  constructor <;>
    norm_num [processFrameWarps, makeFrameWarps, interp, border_scale]

/-- C5 amended: `process_frame` fills every warp's uncovered border with the
reflect policy but uses one separate `warpAffine` pass per active component
(one when only scaling, one when only translating, **two** when both are
active); `make_frame` builds one combined affine matrix applied in a single
pass, but fills the border with constant black, not reflect. -/
theorem warp_pass_structure (w h cw ch s0 s1 x0 x1 y0 y1 c : ℚ) :
    ((processFrameWarps w h s0 s1 x0 x1 y0 y1 c).map Warp.border).all
      (fun b => b == BorderMode.reflect) = true
  ∧ (processFrameWarps w h s0 s1 x0 x1 y0 y1 c).length
      = (if interp s0 s1 c ≠ 1 then 1 else 0)
        + (if interp x0 x1 c ≠ 0 ∨ interp y0 y1 c ≠ 0 then 1 else 0)
  ∧ (makeFrameWarps w h cw ch s0 s1 x0 x1 y0 y1 c).length = 1
  ∧ (makeFrameWarps w h cw ch s0 s1 x0 x1 y0 y1 c).map Warp.border
      = [BorderMode.constantBlack] := by
  refine ⟨?_, ?_, rfl, rfl⟩ <;>
  · simp only [processFrameWarps]
    split_ifs <;> simp

/-- C6 counterexample: `make_frame` (animation_service.py) does **not** clamp
progress: with scale `[1, 1.2]`, linear curve and duration 5, at `t = 10` its
computed scale is `1 + 0.2·(10/5) = 1.4`, while the claimed clamped formula
gives `1.2`. -/
theorem progress_clamp_counterexample :
    makeFrameScale 1 (6/5) (fun x => x) 5 10 = 7/5
  ∧ interp 1 (6/5) ((fun x => x) (specProgress 5 10)) = 6/5
  ∧ (7/5 : ℚ) ≠ 6/5 := by
  refine ⟨?_, ?_, by norm_num⟩ <;>
    norm_num [makeFrameScale, makeProgress, interp, specProgress]

/-- C6 amended: `process_frame`'s computed scale matches the claimed formula
`scaleStart + (scaleEnd − scaleStart)·curve(clamp(t/duration, 0, 1))` (with
`duration ≤ 0 ⇒ p = 1`) for every `t ≥ 0`; `make_frame` matches it only for
`0 ≤ t ≤ duration` (it never clamps — see the counterexample).  In
particular, for scale `[1.0, 1.2]`, linear curve and duration 5.0, the
computed scale at `t = 2.5` is exactly `1.1`. -/
theorem frame_transformer_scale (s0 s1 : ℚ) (curve : ℚ → ℚ) (d t u : ℚ)
    (ht : 0 ≤ t) (hu : 0 ≤ u) (hud : u ≤ d) :
    processFrameScale s0 s1 curve d t = interp s0 s1 (curve (specProgress d t))
  ∧ makeFrameScale s0 s1 curve d u = interp s0 s1 (curve (specProgress d u))
  ∧ processFrameScale 1 (6/5) (fun x => x) 5 (5/2) = 11/10 := by
  refine ⟨?_, ?_, by norm_num [processFrameScale, processProgress, interp]⟩
  · have hp : processProgress d t = specProgress d t := by
      unfold processProgress specProgress
      by_cases hd : d > 0
      · rw [if_pos hd, if_neg (not_le.mpr hd),
          max_eq_right (div_nonneg ht hd.le)]
      · rw [if_neg hd, if_pos (not_lt.mp hd)]
    rw [processFrameScale, hp]
  · have hp : makeProgress d u = specProgress d u := by
      unfold makeProgress specProgress
      by_cases hd : d > 0
      · rw [if_pos hd, if_neg (not_le.mpr hd),
          max_eq_right (div_nonneg hu hd.le),
          min_eq_right ((div_le_one hd).mpr hud)]
      · rw [if_neg hd, if_pos (not_lt.mp hd)]
    rw [makeFrameScale, hp]

/-- Witness for C6 (amended) at `t = 7 > duration = 5` (showing the clamp on
the `process_frame` side) and `u = 2.5` within the clip. -/
theorem frame_transformer_scale_witness :
    processFrameScale 1 (6/5) (fun x => x) 5 7
      = interp 1 (6/5) ((fun x => x) (specProgress 5 7))
  ∧ makeFrameScale 1 (6/5) (fun x => x) 5 (5/2)
      = interp 1 (6/5) ((fun x => x) (specProgress 5 (5/2)))
  ∧ processFrameScale 1 (6/5) (fun x => x) 5 (5/2) = 11/10 :=
  frame_transformer_scale 1 (6/5) (fun x => x) 5 7 (5/2)
    (by norm_num) (by norm_num) (by norm_num)

end Image2Video
